import Mathlib

/-!
Verification of `any_llm`: a shallow embedding of `src/any_llm/client_factory.py`
(the provider client factory) and, where the repository's package code is not in
`src/`, spec-modelled definitions of the batch dispatcher calling contract.

Conventions of the embedding:
- The process environment is a function `String → Option String` (Python's
  `os.getenv` returns `None` for an absent variable).
- Python exceptions become an `Err` inductive carried in `Except`:
  `assertionError` for a failed `assert`, `valueError` for `raise ValueError`,
  `keyError` for a failed dict/mapping subscript. Message strings follow the
  source f-strings (quote characters elided).
- External SDK constructors (`OpenAI`, `Anthropic`, `cohere.Client`, `Groq`,
  `MistralClient` and their async variants) are modelled as records of exactly
  the arguments the factory passes them, since the factory's behaviour is what
  is under verification, not the SDKs.
- The `instructor` wrapper calls are modelled as a tag naming which
  constructor the factory invoked, together with the raw transport, the mode,
  and the extra keyword arguments the factory supplies.
-/

namespace AnyLLM

/-- Modelled from the spec and from usage in `src/any_llm/client_factory.py`:
the `Provider` enumeration is defined in the `any_llm` package root, which is
absent from `src/`; its members here are exactly those referenced by
`client_factory.py` (the six constructed providers plus `VOYAGE`, which
appears in `get_api_key`). -/
inductive Provider
  | OPENAI
  | ANTHROPIC
  | COHERE
  | GROQ
  | MISTRAL
  | ANYSCALE
  | VOYAGE
  deriving DecidableEq

/-- Embedding of the `instructor.Mode` values used by `client_factory.py`. -/
inductive Mode
  | TOOLS
  | ANTHROPIC_TOOLS
  | COHERE_TOOLS
  | MISTRAL_TOOLS
  | JSON_SCHEMA
  deriving DecidableEq

/-- Python exception kinds raised by the code under verification. -/
inductive Err
  | assertionError (msg : String)
  | valueError (msg : String)
  | keyError (key : String)
  deriving DecidableEq

/-- The process environment: `os.getenv` returns `none` for an absent
variable. -/
def Env : Type := String → Option String

/-- Embedding of `get_api_key` (client_factory.py lines 34-50): a dict from
every `Provider` member to `os.getenv` of its variable.  The source asserts
`provider in model_to_api_key`; since the dict covers every member of the
enumeration, the assertion always holds and the function is total, returning
the environment value — possibly `none` — without any presence check. -/
def get_api_key (env : Env) (provider : Provider) : Option String :=
  match provider with
  | .OPENAI => env "OPENAI_API_KEY"
  | .ANTHROPIC => env "ANTHROPIC_API_KEY"
  | .ANYSCALE => env "ANYSCALE_API_KEY"
  | .COHERE => env "COHERE_API_KEY"
  | .VOYAGE => env "VOYAGE_API_KEY"
  | .GROQ => env "GROQ_API_KEY"
  | .MISTRAL => env "MISTRAL_API_KEY"

/-- Embedding of `get_default_mode` (client_factory.py lines 18-31): a dict
over six providers; the source's `assert provider in org_to_mode` fails with
an `AssertionError` for `VOYAGE`, which is not a key of the dict. -/
def get_default_mode (provider : Provider) : Except Err Mode :=
  match provider with
  | .OPENAI => .ok .TOOLS
  | .ANTHROPIC => .ok .ANTHROPIC_TOOLS
  | .COHERE => .ok .COHERE_TOOLS
  | .GROQ => .ok .TOOLS
  | .MISTRAL => .ok .MISTRAL_TOOLS
  | .ANYSCALE => .ok .JSON_SCHEMA
  | .VOYAGE => .error (.assertionError "Provider voyage is not recognized.")

/-- Raw provider SDK client constructions, recording exactly the arguments
`from_any` passes.  For the OpenAI constructor, `api_key` is
`Option (Option String)`: the outer layer records whether the argument was
passed at all, the inner layer the (possibly `None`) value passed. -/
inductive RawClient
  | openaiClient (isAsync : Bool) (base_url : Option String)
      (api_key : Option (Option String))
  | anthropicClient (isAsync : Bool)
  | cohereClient (isAsync : Bool)
  | groqClient (isAsync : Bool) (api_key : Option String)
  | mistralClient (isAsync : Bool)
  deriving DecidableEq

/-- Whether the constructed raw transport is the asynchronous variant of its
SDK (AsyncOpenAI, AsyncAnthropic, cohere.AsyncClient, AsyncGroq,
MistralAsyncClient). -/
def RawClient.isAsync : RawClient → Bool
  | .openaiClient a _ _ => a
  | .anthropicClient a => a
  | .cohereClient a => a
  | .groqClient a _ => a
  | .mistralClient a => a

/-- The api_key argument passed to the transport constructor, if any:
`none` means the constructor was called without an api_key argument,
`some k` that it was called with value `k` (where `k = none` models passing
Python `None`). -/
def RawClient.apiKeyArg : RawClient → Option (Option String)
  | .openaiClient _ _ k => k
  | .anthropicClient _ => none
  | .cohereClient _ => none
  | .groqClient _ k => some k
  | .mistralClient _ => none

/-- Which `instructor` constructor the factory invoked.  `from_openai_create`
records the MISTRAL branch's call `instructor.from_openai` with the raw
client's `chat` method as the `create` argument. -/
inductive Wrapper
  | from_openai
  | from_anthropic
  | from_cohere
  | from_groq
  | from_openai_create
  deriving DecidableEq

/-- The Instructor-wrapped client handle returned by `from_any`: the
`instructor` constructor used, the raw transport it wraps, the resolved mode,
and the extra keyword arguments supplied only in the COHERE branch
(`model=model_name`, `max_tokens=0`). -/
structure ClientHandle where
  wrapper : Wrapper
  raw : RawClient
  mode : Mode
  modelArg : Option String
  maxTokensArg : Option Nat
  deriving DecidableEq

/-- Embedding of `from_any` (client_factory.py lines 54-103), preserving the
source's evaluation order: `get_api_key` first (never failing), then mode
resolution (`get_default_mode` when `mode` is `None`, which fails for
`VOYAGE`), then one construction branch per provider, with a final
`raise ValueError` for any provider matching no branch. -/
def from_any (env : Env) (provider : Provider) (model_name : String)
    (async_client : Bool) (mode : Option Mode) : Except Err ClientHandle := do
  let api_key := get_api_key env provider
  let mode ← match mode with
    | some m => Except.ok m
    | none => get_default_mode provider
  match provider with
  | .OPENAI =>
      Except.ok { wrapper := .from_openai,
                  raw := .openaiClient async_client none none,
                  mode := mode, modelArg := none, maxTokensArg := none }
  | .ANTHROPIC =>
      Except.ok { wrapper := .from_anthropic,
                  raw := .anthropicClient async_client,
                  mode := mode, modelArg := none, maxTokensArg := none }
  | .COHERE =>
      Except.ok { wrapper := .from_cohere,
                  raw := .cohereClient async_client,
                  mode := mode, modelArg := some model_name,
                  maxTokensArg := some 0 }
  | .GROQ =>
      Except.ok { wrapper := .from_groq,
                  raw := .groqClient async_client api_key,
                  mode := mode, modelArg := none, maxTokensArg := none }
  | .MISTRAL =>
      Except.ok { wrapper := .from_openai_create,
                  raw := .mistralClient async_client,
                  mode := mode, modelArg := none, maxTokensArg := none }
  | .ANYSCALE =>
      Except.ok { wrapper := .from_openai,
                  raw := .openaiClient async_client
                    (some "https://api.endpoints.anyscale.com/v1")
                    (some api_key),
                  mode := mode, modelArg := none, maxTokensArg := none }
  | .VOYAGE =>
      Except.error (.valueError
        "Cannot create client for unsupported provider: Provider.VOYAGE")

/-- The six providers for which `from_any` has a construction branch. -/
def supportedProviders : List Provider :=
  [.OPENAI, .ANTHROPIC, .COHERE, .GROQ, .MISTRAL, .ANYSCALE]

/-- Entry of the `model_mapping` table (defined in the `any_llm` package
root, absent from `src/`): `client_factory.py` accesses only its `.org`
field, so the embedding records just that.  The table itself is a parameter
of `get_chat_urls` below. -/
structure ModelInfo where
  org : String
  deriving DecidableEq

/-- Embedding of the `model_to_chat_url` dict inside `get_chat_urls`
(client_factory.py lines 110-116): `none` models a key absent from the dict
(a subscript would raise `KeyError`). -/
def model_to_chat_url (org : String) : Option String :=
  if org = "openai" then some "https://api.openai.com/v1/chat/completions"
  else if org = "anyscale" then
    some "https://api.endpoints.anyscale.com/v1/chat/completions"
  else if org = "anthropic" then some "https://api.anthropic.com/v1/messages"
  else if org = "cohere" then some "https://api.cohere.ai/v1/chat/completions"
  else if org = "voyage" then some "https://api.voyageai.com/v1/embeddings"
  else none

/-- Embedding of `get_chat_urls` (client_factory.py lines 106-118),
parameterised over the external `model_mapping` table: both subscripts —
`model_mapping[model_name]` and `model_to_chat_url[org]` — raise `KeyError`
on a missing key. -/
def get_chat_urls (model_mapping : String → Option ModelInfo)
    (model_name : String) : Except Err String :=
  match model_mapping model_name with
  | none => .error (.keyError model_name)
  | some info =>
    match model_to_chat_url info.org with
    | none => .error (.keyError info.org)
    | some url => .ok url

/-- Modelled from the spec: one pending request read from the ledger
(spec section 3, RequestRecord) — the dispatcher implementation
`process_api_requests_from_file` lives in the `any_llm` package root, which
is absent from `src/`; only its caller `src/examples/openai_chat_pipeline.py`
is present. -/
structure RequestRecord where
  seq : Nat
  model_name : String
  payload : String
  max_attempts : Nat
  deriving DecidableEq

/-- Modelled from the spec: the classification of one outbound call's result
(spec section 4.5 step 4): success, retryable transient failure, or
non-retryable failure. -/
inductive CallResult
  | success (resp : String)
  | retryable (err : String)
  | fatal (err : String)
  deriving DecidableEq

/-- Modelled from the spec: one terminal outcome appended to the output
ledger (spec section 3, OutcomeRecord): sequence index, success flag,
response payload or error description, attempts used. -/
structure OutcomeRecord where
  seq : Nat
  success : Bool
  payload : String
  attempts_used : Nat
  deriving DecidableEq

/-- Modelled from the spec: the per-record retry loop of the dispatcher
(spec section 4.5): attempts are issued against the call oracle until
success, a non-retryable failure, or exhaustion of the remaining attempt
budget, producing exactly one terminal `OutcomeRecord`.  `call n` is the
result of the n-th attempt (1-based); `used` counts attempts already
spent. -/
def runAttempts (call : Nat → CallResult) (seq : Nat) :
    Nat → Nat → OutcomeRecord
  | 0, used =>
      { seq := seq, success := false,
        payload := "max attempts exhausted", attempts_used := used }
  | remaining + 1, used =>
    match call (used + 1) with
    | .success r =>
        { seq := seq, success := true, payload := r,
          attempts_used := used + 1 }
    | .fatal e =>
        { seq := seq, success := false, payload := e,
          attempts_used := used + 1 }
    | .retryable _ => runAttempts call seq remaining (used + 1)

/-- Modelled from the spec: dispatch of a single `RequestRecord` to a
terminal outcome, honouring its `max_attempts` budget (spec section 4.5). -/
def dispatchRecord (call : Nat → CallResult) (r : RequestRecord) :
    OutcomeRecord :=
  runAttempts call r.seq r.max_attempts 0

/-- Modelled from the spec: `process_api_requests_from_file` (the batch
dispatcher of the `any_llm` package root, absent from `src/`; called from
`src/examples/openai_chat_pipeline.py`): every well-formed pending record is
driven to exactly one terminal outcome, which is appended to the output
ledger (spec sections 4.5 and 8).  `call s n` is the result of attempt `n`
of the record with sequence index `s`. -/
def process_api_requests_from_file (call : Nat → Nat → CallResult)
    (records : List RequestRecord) : List OutcomeRecord :=
  records.map (fun r => dispatchRecord (call r.seq) r)

/-- An environment with no variables set: every `os.getenv` returns `None`. -/
def emptyEnv : Env := fun _ => none

/-- An environment with exactly one variable set. -/
def envWith (var val : String) : Env :=
  fun s => if s = var then some val else none

/-- Membership in `supportedProviders`, unfolded to a disjunction for case
analysis. -/
theorem mem_supportedProviders (p : Provider) (hp : p ∈ supportedProviders) :
    p = .OPENAI ∨ p = .ANTHROPIC ∨ p = .COHERE ∨ p = .GROQ ∨ p = .MISTRAL ∨
      p = .ANYSCALE := by
  simp only [supportedProviders, List.mem_cons, List.not_mem_nil,
    or_false] at hp
  exact hp

/-- C1 counterexample: with an empty environment (GROQ_API_KEY absent),
`from_any` for GROQ does not fail at all — `get_api_key` returns `None` and
the GROQ transport is constructed with that absent credential
(`api_key=None`), contradicting the claim that the call fails with
`MissingCredentialError` before any transport is used. -/
theorem C1_counterexample :
    get_api_key emptyEnv Provider.GROQ = none ∧
    from_any emptyEnv Provider.GROQ "llama3-8b" false (some Mode.TOOLS) =
      Except.ok { wrapper := .from_groq, raw := .groqClient false none,
                  mode := .TOOLS, modelArg := none, maxTokensArg := none } :=
  ⟨rfl, rfl⟩

/-- C1 amended: `from_any` performs no credential-presence check: for every
implemented provider, with every variable absent from the environment and any
mode option, it still returns a client handle (passing the absent credential
on to the transport only in the GROQ and ANYSCALE branches); no
`MissingCredentialError` is raised anywhere. -/
theorem C1_amended_no_credential_check (p : Provider)
    (hp : p ∈ supportedProviders) (mn : String) (b : Bool) (mo : Option Mode) :
    ∃ h, from_any emptyEnv p mn b mo = Except.ok h := by
  rcases mem_supportedProviders p hp with rfl | rfl | rfl | rfl | rfl | rfl <;>
    cases mo <;> exact ⟨_, rfl⟩

/-- C1 witness: the amended theorem instantiated at GROQ with mode unset. -/
theorem C1_witness :
    Provider.GROQ ∈ supportedProviders ∧
    ∃ h, from_any emptyEnv Provider.GROQ "llama3-8b" false none =
      Except.ok h :=
  ⟨by decide,
    C1_amended_no_credential_check Provider.GROQ (by decide) "llama3-8b"
      false none⟩

/-- C2: for every supported provider with its credential present in the
environment and no mode override, `from_any` succeeds and the returned handle
carries the provider's registered default parsing mode. -/
theorem C2_default_mode_on_success (env : Env) (p : Provider) (mn : String)
    (b : Bool) (k : String) (hp : p ∈ supportedProviders)
    (hk : get_api_key env p = some k) :
    ∃ h, from_any env p mn b none = Except.ok h ∧
      get_default_mode p = Except.ok h.mode := by
  rcases mem_supportedProviders p hp with rfl | rfl | rfl | rfl | rfl | rfl <;>
    exact ⟨_, rfl, rfl⟩

/-- C2 witness: OPENAI with OPENAI_API_KEY set and no override. -/
theorem C2_witness :
    Provider.OPENAI ∈ supportedProviders ∧
    get_api_key (envWith "OPENAI_API_KEY" "sk-test") Provider.OPENAI =
      some "sk-test" ∧
    ∃ h, from_any (envWith "OPENAI_API_KEY" "sk-test") Provider.OPENAI
        "gpt-3.5-turbo" false none = Except.ok h ∧
      get_default_mode Provider.OPENAI = Except.ok h.mode :=
  ⟨by decide, by decide,
    C2_default_mode_on_success (envWith "OPENAI_API_KEY" "sk-test")
      Provider.OPENAI "gpt-3.5-turbo" false "sk-test" (by decide) (by decide)⟩

/-- C3 counterexample: VOYAGE is recognized by `get_api_key` but matches no
construction branch, yet `from_any` with mode unset fails with the
`AssertionError` raised inside `get_default_mode` — the same error kind as a
registry-recognition failure — not with the distinct unsupported-provider
`ValueError` of the final branch, contradicting the claim as stated. -/
theorem C3_counterexample :
    get_api_key emptyEnv Provider.VOYAGE = emptyEnv "VOYAGE_API_KEY" ∧
    from_any emptyEnv Provider.VOYAGE "voyage-2" false none =
      Except.error (Err.assertionError "Provider voyage is not recognized.") ∧
    Err.assertionError "Provider voyage is not recognized." ≠
      Err.valueError
        "Cannot create client for unsupported provider: Provider.VOYAGE" :=
  ⟨rfl, rfl, by decide⟩

/-- C3 amended: only when an explicit mode is supplied does `from_any` for a
recognized-but-unimplemented provider (VOYAGE) fail with the distinct
unsupported-provider error kind (`ValueError`); with mode unset it fails
earlier, inside `get_default_mode`, with the same assertion kind used for
unrecognized identifiers, so the two causes are distinguishable only when a
mode is supplied. -/
theorem C3_amended_error_kinds (env : Env) (mn : String) (b : Bool)
    (m : Mode) :
    from_any env Provider.VOYAGE mn b (some m) =
      Except.error (Err.valueError
        "Cannot create client for unsupported provider: Provider.VOYAGE") ∧
    from_any env Provider.VOYAGE mn b none =
      Except.error (Err.assertionError "Provider voyage is not recognized.") ∧
    Err.valueError
        "Cannot create client for unsupported provider: Provider.VOYAGE" ≠
      Err.assertionError "Provider voyage is not recognized." :=
  ⟨rfl, rfl, by decide⟩

/-- C4: for every supported provider and every mode `m`, `from_any` with an
explicit mode builds the handle with that mode (the override wins), and with
mode unset builds it with the provider's registered default. -/
theorem C4_mode_resolution (env : Env) (p : Provider) (mn : String) (b : Bool)
    (m : Mode) (hp : p ∈ supportedProviders) :
    (∃ h, from_any env p mn b (some m) = Except.ok h ∧ h.mode = m) ∧
    (∃ h, from_any env p mn b none = Except.ok h ∧
      get_default_mode p = Except.ok h.mode) := by
  rcases mem_supportedProviders p hp with rfl | rfl | rfl | rfl | rfl | rfl <;>
    exact ⟨⟨_, rfl, rfl⟩, ⟨_, rfl, rfl⟩⟩

/-- C4 witness: ANTHROPIC with an explicit JSON_SCHEMA override and with mode
unset. -/
theorem C4_witness :
    Provider.ANTHROPIC ∈ supportedProviders ∧
    ((∃ h, from_any emptyEnv Provider.ANTHROPIC "claude-3" true
        (some Mode.JSON_SCHEMA) = Except.ok h ∧ h.mode = Mode.JSON_SCHEMA) ∧
    (∃ h, from_any emptyEnv Provider.ANTHROPIC "claude-3" true none =
        Except.ok h ∧
      get_default_mode Provider.ANTHROPIC = Except.ok h.mode)) :=
  ⟨by decide,
    C4_mode_resolution emptyEnv Provider.ANTHROPIC "claude-3" true
      Mode.JSON_SCHEMA (by decide)⟩

/-- C5 counterexample: for OPENAI with OPENAI_API_KEY present, `get_api_key`
resolves the credential, yet the transport is constructed with no api_key
argument at all (`OpenAI()`), contradicting the claim that every provider
branch constructs the transport with the resolved credential. -/
theorem C5_counterexample :
    get_api_key (envWith "OPENAI_API_KEY" "sk-test") Provider.OPENAI =
      some "sk-test" ∧
    from_any (envWith "OPENAI_API_KEY" "sk-test") Provider.OPENAI "gpt-4"
        false (some Mode.TOOLS) =
      Except.ok { wrapper := .from_openai,
                  raw := .openaiClient false none none,
                  mode := .TOOLS, modelArg := none, maxTokensArg := none } ∧
    RawClient.apiKeyArg (.openaiClient false none none) = none := by
  refine ⟨by decide, rfl, rfl⟩

/-- C5 amended: only the GROQ and ANYSCALE branches construct their transport
with the credential resolved by `get_api_key`; the OPENAI, ANTHROPIC, COHERE
and MISTRAL branches construct the transport without passing any credential
argument (the SDK's own environment lookup is relied upon instead). -/
theorem C5_amended_api_key_flow (env : Env) (mn : String) (b : Bool)
    (mo : Option Mode) :
    (∃ h, from_any env Provider.GROQ mn b mo = Except.ok h ∧
      h.raw.apiKeyArg = some (get_api_key env Provider.GROQ)) ∧
    (∃ h, from_any env Provider.ANYSCALE mn b mo = Except.ok h ∧
      h.raw.apiKeyArg = some (get_api_key env Provider.ANYSCALE)) ∧
    (∀ p, p ∈ [Provider.OPENAI, Provider.ANTHROPIC, Provider.COHERE,
        Provider.MISTRAL] →
      ∃ h, from_any env p mn b mo = Except.ok h ∧
        h.raw.apiKeyArg = none) := by
  refine ⟨?_, ?_, ?_⟩
  · cases mo <;> exact ⟨_, rfl, rfl⟩
  · cases mo <;> exact ⟨_, rfl, rfl⟩
  · intro p hp
    simp only [List.mem_cons, List.not_mem_nil, or_false] at hp
    rcases hp with rfl | rfl | rfl | rfl <;> cases mo <;> exact ⟨_, rfl, rfl⟩

/-- C5 witness: the amended theorem's last clause instantiated at ANTHROPIC,
and its first clause at a concrete environment. -/
theorem C5_witness :
    Provider.ANTHROPIC ∈ [Provider.OPENAI, Provider.ANTHROPIC,
      Provider.COHERE, Provider.MISTRAL] ∧
    (∃ h, from_any emptyEnv Provider.ANTHROPIC "claude-3" false none =
        Except.ok h ∧ h.raw.apiKeyArg = none) ∧
    (∃ h, from_any emptyEnv Provider.GROQ "claude-3" false none =
        Except.ok h ∧
      h.raw.apiKeyArg = some (get_api_key emptyEnv Provider.GROQ)) :=
  ⟨by decide,
    (C5_amended_api_key_flow emptyEnv "claude-3" false none).2.2
      Provider.ANTHROPIC (by decide),
    (C5_amended_api_key_flow emptyEnv "claude-3" false none).1⟩

/-- C6: for every supported provider, `from_any` succeeds and the raw
transport it wraps is the asynchronous SDK variant exactly when
`async_client` is true (the `instructor` wrapper then dispatches on that
transport). -/
theorem C6_async_selection (env : Env) (p : Provider) (mn : String)
    (b : Bool) (mo : Option Mode) (hp : p ∈ supportedProviders) :
    ∃ h, from_any env p mn b mo = Except.ok h ∧ h.raw.isAsync = b := by
  rcases mem_supportedProviders p hp with rfl | rfl | rfl | rfl | rfl | rfl <;>
    cases mo <;> exact ⟨_, rfl, rfl⟩

/-- C6 witness: MISTRAL with the async flag set and with it clear. -/
theorem C6_witness :
    Provider.MISTRAL ∈ supportedProviders ∧
    (∃ h, from_any emptyEnv Provider.MISTRAL "mistral-large" true none =
        Except.ok h ∧ h.raw.isAsync = true) ∧
    (∃ h, from_any emptyEnv Provider.MISTRAL "mistral-large" false none =
        Except.ok h ∧ h.raw.isAsync = false) :=
  ⟨by decide,
    C6_async_selection emptyEnv Provider.MISTRAL "mistral-large" true none
      (by decide),
    C6_async_selection emptyEnv Provider.MISTRAL "mistral-large" false none
      (by decide)⟩

/-- C8: VOYAGE is recognized by `get_api_key` (which returns the
VOYAGE_API_KEY environment value) but implemented by no construction branch;
the error `from_any` raises depends on the mode argument — with mode unset it
is the recognition assertion raised inside `get_default_mode`, with an
explicit mode it is the final unsupported-provider `ValueError`. -/
theorem C8_voyage_mode_dependent_error (env : Env) (mn : String) (b : Bool)
    (m : Mode) :
    get_api_key env Provider.VOYAGE = env "VOYAGE_API_KEY" ∧
    get_default_mode Provider.VOYAGE =
      Except.error (Err.assertionError "Provider voyage is not recognized.") ∧
    from_any env Provider.VOYAGE mn b none =
      Except.error (Err.assertionError "Provider voyage is not recognized.") ∧
    from_any env Provider.VOYAGE mn b (some m) =
      Except.error (Err.valueError
        "Cannot create client for unsupported provider: Provider.VOYAGE") :=
  ⟨rfl, rfl, rfl, rfl⟩

/-- The retry loop preserves the record's sequence index in the outcome it
produces. -/
theorem runAttempts_seq (call : Nat → CallResult) (s : Nat) :
    ∀ remaining used, (runAttempts call s remaining used).seq = s := by
  intro remaining
  induction remaining with
  | zero => intro used; rfl
  | succ n ih =>
      intro used
      show (match call (used + 1) with
        | .success r =>
            ({ seq := s, success := true, payload := r,
               attempts_used := used + 1 } : OutcomeRecord)
        | .fatal e =>
            { seq := s, success := false, payload := e,
              attempts_used := used + 1 }
        | .retryable _ => runAttempts call s n (used + 1)).seq = s
      cases call (used + 1) with
      | success r => rfl
      | retryable e => exact ih (used + 1)
      | fatal e => rfl

/-- The dispatcher maps each input record to an outcome carrying the same
sequence index, in order. -/
theorem process_seq_map (call : Nat → Nat → CallResult) :
    ∀ records : List RequestRecord,
      (process_api_requests_from_file call records).map OutcomeRecord.seq =
        records.map RequestRecord.seq := by
  intro records
  induction records with
  | nil => rfl
  | cons r t ih =>
      simp only [process_api_requests_from_file, List.map_cons] at ih ⊢
      rw [ih]
      show (dispatchRecord (call r.seq) r).seq :: _ = r.seq :: _
      rw [dispatchRecord, runAttempts_seq]

/-- C7: a completed dispatch run over N well-formed records appends exactly N
outcome records, whose sequence indices are, in order, exactly the input
records' sequence indices; when the input indices are distinct each outcome's
index is unique and matches one input record — no drops, no duplicates. -/
theorem C7_one_outcome_per_record (call : Nat → Nat → CallResult)
    (records : List RequestRecord)
    (hnodup : (records.map RequestRecord.seq).Nodup) :
    (process_api_requests_from_file call records).length = records.length ∧
    (process_api_requests_from_file call records).map OutcomeRecord.seq =
      records.map RequestRecord.seq ∧
    ((process_api_requests_from_file call records).map
      OutcomeRecord.seq).Nodup := by
  refine ⟨?_, process_seq_map call records, ?_⟩
  · simp [process_api_requests_from_file]
  · rw [process_seq_map call records]
    exact hnodup

/-- C7 witness: a two-record batch whose calls always succeed. -/
theorem C7_witness :
    (([⟨0, "gpt-3.5-turbo", "fact about 1", 3⟩,
       ⟨1, "gpt-3.5-turbo", "fact about 2", 3⟩] :
      List RequestRecord).map RequestRecord.seq).Nodup ∧
    ((process_api_requests_from_file (fun _ _ => CallResult.success "ok")
        [⟨0, "gpt-3.5-turbo", "fact about 1", 3⟩,
         ⟨1, "gpt-3.5-turbo", "fact about 2", 3⟩]).length =
      ([⟨0, "gpt-3.5-turbo", "fact about 1", 3⟩,
        ⟨1, "gpt-3.5-turbo", "fact about 2", 3⟩] :
        List RequestRecord).length ∧
    (process_api_requests_from_file (fun _ _ => CallResult.success "ok")
        [⟨0, "gpt-3.5-turbo", "fact about 1", 3⟩,
         ⟨1, "gpt-3.5-turbo", "fact about 2", 3⟩]).map OutcomeRecord.seq =
      ([⟨0, "gpt-3.5-turbo", "fact about 1", 3⟩,
        ⟨1, "gpt-3.5-turbo", "fact about 2", 3⟩] :
        List RequestRecord).map RequestRecord.seq ∧
    ((process_api_requests_from_file (fun _ _ => CallResult.success "ok")
        [⟨0, "gpt-3.5-turbo", "fact about 1", 3⟩,
         ⟨1, "gpt-3.5-turbo", "fact about 2", 3⟩]).map
      OutcomeRecord.seq).Nodup) :=
  ⟨by decide,
    C7_one_outcome_per_record (fun _ _ => CallResult.success "ok")
      [⟨0, "gpt-3.5-turbo", "fact about 1", 3⟩,
       ⟨1, "gpt-3.5-turbo", "fact about 2", 3⟩] (by decide)⟩

/-- C9: for every provider other than COHERE, the result of `from_any` does
not depend on the model name — any two model names yield identically
configured client handles. -/
theorem C9_model_name_noninterference (env : Env) (p : Provider)
    (mn1 mn2 : String) (b : Bool) (mo : Option Mode)
    (hp : p ∈ [Provider.OPENAI, Provider.ANTHROPIC, Provider.GROQ,
      Provider.MISTRAL, Provider.ANYSCALE]) :
    from_any env p mn1 b mo = from_any env p mn2 b mo := by
  simp only [List.mem_cons, List.not_mem_nil, or_false] at hp
  rcases hp with rfl | rfl | rfl | rfl | rfl <;> cases mo <;> rfl

/-- C9 witness: OPENAI with two distinct model names. -/
theorem C9_witness :
    Provider.OPENAI ∈ [Provider.OPENAI, Provider.ANTHROPIC, Provider.GROQ,
      Provider.MISTRAL, Provider.ANYSCALE] ∧
    from_any emptyEnv Provider.OPENAI "gpt-4" false none =
      from_any emptyEnv Provider.OPENAI "gpt-3.5-turbo" false none :=
  ⟨by decide,
    C9_model_name_noninterference emptyEnv Provider.OPENAI "gpt-4"
      "gpt-3.5-turbo" false none (by decide)⟩

/-- The five organization names for which the `model_to_chat_url` dict has an
entry. -/
def chatUrlOrgs : List String :=
  ["openai", "anyscale", "anthropic", "cohere", "voyage"]

/-- The url table succeeds exactly on the five listed organizations. -/
theorem model_to_chat_url_isSome (org : String) :
    (model_to_chat_url org).isSome = true ↔ org ∈ chatUrlOrgs := by
  simp only [model_to_chat_url, chatUrlOrgs, List.mem_cons, List.not_mem_nil,
    or_false]
  by_cases h1 : org = "openai"
  · simp [h1]
  by_cases h2 : org = "anyscale"
  · simp [h1, h2]
  by_cases h3 : org = "anthropic"
  · simp [h1, h2, h3]
  by_cases h4 : org = "cohere"
  · simp [h1, h2, h3, h4]
  by_cases h5 : org = "voyage"
  · simp [h1, h2, h3, h4, h5]
  simp [h1, h2, h3, h4, h5]

/-- C10: `get_chat_urls` resolves a URL exactly for model names mapped to one
of the five organizations of its internal table; a model name absent from
`model_mapping` fails with a key-lookup error on the model name; a model
mapped to any other organization — including groq and mistral, which
`from_any` supports — fails with a key-lookup error on the organization; and
a voyage-organization model resolves to the embeddings endpoint, which is not
a chat endpoint. -/
theorem C10_get_chat_urls_domain (mm : String → Option ModelInfo)
    (mn : String) :
    (mm mn = none → get_chat_urls mm mn = Except.error (Err.keyError mn)) ∧
    (∀ info, mm mn = some info →
      ((∃ url, get_chat_urls mm mn = Except.ok url) ↔
        info.org ∈ chatUrlOrgs) ∧
      (info.org = "groq" ∨ info.org = "mistral" →
        get_chat_urls mm mn = Except.error (Err.keyError info.org)) ∧
      (info.org ∉ chatUrlOrgs →
        get_chat_urls mm mn = Except.error (Err.keyError info.org)) ∧
      (info.org = "voyage" →
        get_chat_urls mm mn =
          Except.ok "https://api.voyageai.com/v1/embeddings" ∧
        ¬ ("/chat/completions".data <:+
          "https://api.voyageai.com/v1/embeddings".data))) := by
  constructor
  · intro h0
    simp [get_chat_urls, h0]
  · intro info hinfo
    have hmiss : info.org ∉ chatUrlOrgs →
        get_chat_urls mm mn = Except.error (Err.keyError info.org) := by
      intro hnot
      have hnone : model_to_chat_url info.org = none := by
        cases hu : model_to_chat_url info.org with
        | none => rfl
        | some u =>
            exact absurd ((model_to_chat_url_isSome info.org).mp
              (by simp [hu])) hnot
      simp [get_chat_urls, hinfo, hnone]
    refine ⟨?_, ?_, hmiss, ?_⟩
    · constructor
      · rintro ⟨url, hurl⟩
        by_contra hnot
        rw [hmiss hnot] at hurl
        exact Except.noConfusion hurl
      · intro hmem
        have hsome : (model_to_chat_url info.org).isSome = true :=
          (model_to_chat_url_isSome info.org).mpr hmem
        cases hu : model_to_chat_url info.org with
        | none => rw [hu] at hsome; exact Bool.noConfusion hsome
        | some u => exact ⟨u, by simp [get_chat_urls, hinfo, hu]⟩
    · rintro (h | h) <;>
        simp [get_chat_urls, hinfo, model_to_chat_url, h]
    · intro hv
      refine ⟨?_, by decide⟩
      simp [get_chat_urls, hinfo, model_to_chat_url, hv]

/-- C10 witness: a concrete mapping with an openai model, a groq model and a
voyage model, plus an absent model name. -/
theorem C10_witness :
    ((fun s => if s = "gpt-4" then some (⟨"openai"⟩ : ModelInfo)
      else if s = "llama3-8b" then some ⟨"groq"⟩
      else if s = "voyage-2" then some ⟨"voyage"⟩
      else none) "voyage-2" = some (⟨"voyage"⟩ : ModelInfo)) ∧
    get_chat_urls (fun s => if s = "gpt-4" then some ⟨"openai"⟩
      else if s = "llama3-8b" then some ⟨"groq"⟩
      else if s = "voyage-2" then some ⟨"voyage"⟩
      else none) "voyage-2" =
      Except.ok "https://api.voyageai.com/v1/embeddings" :=
  ⟨by decide,
    (((C10_get_chat_urls_domain
      (fun s => if s = "gpt-4" then some ⟨"openai"⟩
        else if s = "llama3-8b" then some ⟨"groq"⟩
        else if s = "voyage-2" then some ⟨"voyage"⟩
        else none) "voyage-2").2 ⟨"voyage"⟩ (by decide)).2.2.2 rfl).1⟩

end AnyLLM
